import Mathlib

/-!
Verification of the ferrari-race-strategizer strategy core and dashboard logic.

The race-strategy decision engine (PitWindowOptimizer, CompetitorThreatAnalyzer,
RaceOutcomeSimulator, StrategyEngine) is described by the repository's
documentation; the dashboard components (`RaceSimulation`, `PitStopOptimizer`,
`LiveAlerts`, `StrategyOverview`) are TypeScript/React sources embedded here
directly.  Numeric race quantities are modelled with `Nat`, `Int` and `Rat`.
-/

/-- Tire compound enum, `SOFT | MEDIUM | HARD` (stable contract, spec section 6). -/
inductive Compound where
  | SOFT
  | MEDIUM
  | HARD
deriving DecidableEq, Repr

/-- Risk level enum `LOW | MEDIUM | HIGH` with ordering LOW < MEDIUM < HIGH. -/
inductive RiskLevel where
  | LOW
  | MEDIUM
  | HIGH
deriving DecidableEq, Repr

/-- Immediate-action verb enum `PIT_NOW | CONTINUE`. -/
inductive Verb where
  | PIT_NOW
  | CONTINUE
deriving DecidableEq, Repr

/-- Decision-urgency enum `IMMEDIATE | SOON | MONITOR | LOW`
(backend README, `UrgencyLevel`). -/
inductive Urgency where
  | IMMEDIATE
  | SOON
  | MONITOR
  | LOW
deriving DecidableEq, Repr

/-! ## Dashboard embedding: `RaceSimulation` component (src/unnamed/part_001) -/

/-- One driver entry of the API race state consumed by the dashboard
(fields used by `RaceSimulation` and `StrategyOverview`). -/
structure ApiDriver where
  number : Nat
  name : String
  position : Nat
  tire_compound : Compound
  tire_age : Nat
  gap_to_leader : Rat
deriving DecidableEq, Repr

/-- API race state snapshot consumed by the dashboard components. -/
structure ApiRaceState where
  current_lap : Nat
  total_laps : Nat
  track_temp : Rat
  drivers : List ApiDriver
deriving DecidableEq, Repr

/-- A simulation scenario card of the `RaceSimulation` component. -/
structure SimulationScenario where
  id : String
  name : String
  description : String
  strategy_name : String
  pit_lap : Nat
  new_compound : Compound
deriving DecidableEq, Repr

/-- The `dynamicScenarios` array built by `RaceSimulation.loadData`
(src/unnamed/part_001 lines 56-82): three scenarios pitting on
`currentLap + 1`, `currentLap + 5` and `currentLap + 10`, with compound
choices depending on the Ferrari driver's current compound. -/
def dynamicScenarios (race : ApiRaceState) (ferrariDriver : ApiDriver) :
    List SimulationScenario :=
  let currentLap := race.current_lap
  let totalLaps := race.total_laps
  let lapsRemaining := totalLaps - currentLap
  [ { id := "early"
      name := "Early Pit (Next Lap)"
      description := "Pit immediately to gain advantage. Fresh tires for remaining "
        ++ toString lapsRemaining ++ " laps"
      strategy_name := "AGGRESSIVE_UNDERCUT"
      pit_lap := currentLap + 1
      new_compound :=
        if ferrariDriver.tire_compound = Compound.SOFT then Compound.MEDIUM
        else Compound.SOFT },
    { id := "mid"
      name := "Mid-Strategy Pit"
      description := "Pit in 5 laps to optimize tire wear and track position"
      strategy_name := "DYNAMIC_POSITION_PLAY"
      pit_lap := currentLap + 5
      new_compound :=
        if ferrariDriver.tire_compound = Compound.HARD then Compound.MEDIUM
        else Compound.HARD },
    { id := "late"
      name := "Extended Stint"
      description := "Push current tires longer for late-race advantage"
      strategy_name := "CONSERVATIVE_LONG_STINT"
      pit_lap := currentLap + 10
      new_compound :=
        if ferrariDriver.tire_compound = Compound.SOFT then Compound.HARD
        else Compound.SOFT } ]

/-- Concrete late-race snapshot: lap 55 of 58. -/
def driverLate : ApiDriver :=
  { number := 16, name := "Charles Leclerc", position := 3
    tire_compound := Compound.SOFT, tire_age := 20, gap_to_leader := 5 }

/-- Concrete late-race API state used to test the scenario generator. -/
def raceLate : ApiRaceState :=
  { current_lap := 55, total_laps := 58, track_temp := 30
    drivers := [driverLate] }

/-! ## Dashboard embedding: `PitStopOptimizer` component -/

/-- Result of `getUrgencyStatus`: a status label and a CSS color class. -/
structure UrgencyInfo where
  status : String
  color : String
deriving DecidableEq, Repr

/-- `getUrgencyStatus` from PitStopOptimizer.tsx lines 108-113: classifies
laps-to-optimal into CRITICAL (at most 2), WARNING (at most 5), MONITOR
(everything larger). -/
def getUrgencyStatus (optimalLap currentLap : Int) : UrgencyInfo :=
  let lapsToOptimal := optimalLap - currentLap
  if lapsToOptimal ≤ 2 then
    { status := "CRITICAL", color := "text-ferrari-red animate-flash" }
  else if lapsToOptimal ≤ 5 then
    { status := "WARNING", color := "text-ferrari-yellow" }
  else
    { status := "MONITOR", color := "text-ferrari-gold" }

/-- Modelled from the spec: the four-level `decision_urgency` thresholds of
section 4.5 (IMMEDIATE if laps-to-optimal ≤ 2, SOON if ≤ 5, MONITOR if ≤ 10,
else LOW), written out from the spec's words for comparison with the
dashboard's `getUrgencyStatus`. -/
def specDecisionUrgency (lapsToOptimal : Int) : String :=
  if lapsToOptimal ≤ 2 then "IMMEDIATE"
  else if lapsToOptimal ≤ 5 then "SOON"
  else if lapsToOptimal ≤ 10 then "MONITOR"
  else "LOW"

/-- A pit-window recommendation row of the `PitStopOptimizer` component. -/
structure PitWindow where
  driver : String
  optimalLap : Nat
  currentLap : Nat
  timeGain : Rat
  confidence : Rat
deriving DecidableEq, Repr

/-- Initial `pitRecommendations` state of PitStopOptimizer.tsx (lines 28-51),
restricted to the fields the periodic update touches. -/
def pitRecommendationsInit : List PitWindow :=
  [ { driver := "HAM", optimalLap := 36, currentLap := 32
      timeGain := 85/10, confidence := 85 },
    { driver := "LEC", optimalLap := 42, currentLap := 32
      timeGain := 123/10, confidence := 78 } ]

/-- The confidence update applied every 10 seconds in PitStopOptimizer.tsx
line 69: `Math.max(50, Math.min(95, rec.confidence + (Math.random() - 0.5) * 10))`.
The random perturbation is abstracted as an arbitrary rational `noise`. -/
def updateConfidence (confidence noise : Rat) : Rat :=
  max 50 (min 95 (confidence + noise))

/-- One tick of the `setPitRecommendations` interval update
(PitStopOptimizer.tsx lines 65-70) on a single row, with the two random
draws abstracted as `gainNoise` and `confNoise`. -/
def tickPitWindow (rec : PitWindow) (gainNoise confNoise : Rat) : PitWindow :=
  { rec with
    currentLap := rec.currentLap + 1
    timeGain := rec.timeGain + gainNoise
    confidence := updateConfidence rec.confidence confNoise }

/-! ## Dashboard embedding: `LiveAlerts` component -/

/-- Alert severity of the `LiveAlerts` component. -/
inductive AlertType where
  | critical
  | warning
  | info
deriving DecidableEq, Repr

/-- An alert entry of the `LiveAlerts` component. -/
structure Alert where
  id : String
  type : AlertType
  message : String
deriving DecidableEq, Repr

/-- The `setAlerts` update of LiveAlerts.tsx line 30:
`setAlerts(prev => [newAlert, ...prev.slice(0, 4)])` — prepend the new alert
and keep only the 5 latest. -/
def pushAlert (newAlert : Alert) (prev : List Alert) : List Alert :=
  newAlert :: prev.take 4

/-- Folding a stream of incoming alert messages through `pushAlert`,
starting from a given alert-list state. -/
def processAlerts (start : List Alert) (msgs : List Alert) : List Alert :=
  msgs.foldl (fun l a => pushAlert a l) start

/-! ## Strategy core modelled from the spec

The PitWindowOptimizer / CompetitorThreatAnalyzer / RaceOutcomeSimulator /
StrategyEngine implementation is not among the provided sources (only its
README documentation, API declarations and frontend callers are), so the
definitions below are modelled from the spec, sections 3, 4 and 7, and from
the backend README's request/response declarations. -/

/-- Modelled from the spec: the `RaceState` snapshot consumed by the strategy
engine, in the flat shape of the backend `RaceStateRequest` declaration
(current lap, subject position, tire state, temperature, gaps, total laps). -/
structure RaceState where
  current_lap : Nat
  position : Nat
  tire_age : Nat
  compound : Compound
  track_temp : Rat
  gaps_ahead : List Rat
  gaps_behind : List Rat
  total_laps : Nat
  num_drivers : Nat
deriving DecidableEq, Repr

/-- Modelled from the spec (section 7, `InvalidRaceState`): the rejection value
for a malformed/inconsistent snapshot. -/
structure InvalidRaceState where
  reason : String
deriving DecidableEq, Repr

/-- Modelled from the spec (section 3): validity of a `RaceState` snapshot —
current lap at least 1, total laps greater than the current lap, a real
position on a grid of at least one car, and non-negative gaps. -/
def validRaceState (st : RaceState) : Prop :=
  1 ≤ st.current_lap ∧ st.current_lap < st.total_laps ∧
  1 ≤ st.position ∧ st.position ≤ st.num_drivers ∧
  (∀ g ∈ st.gaps_ahead, 0 ≤ g) ∧ (∀ g ∈ st.gaps_behind, 0 ≤ g)

instance (st : RaceState) : Decidable (validRaceState st) := by
  unfold validRaceState
  infer_instance

/-- Modelled from the spec (section 3): `DegradationForecast` produced by the
ForecastAdapter — rate in seconds/lap with a 95 percent interval and a
derived risk level. -/
structure DegradationForecast where
  rate : Rat
  lower_bound : Rat
  upper_bound : Rat
  risk_level : RiskLevel
deriving DecidableEq, Repr

/-- Modelled from the spec (section 4.1): the ForecastAdapter failure mode —
the underlying predictor cannot be loaded (a forecaster timeout is treated
identically, spec section 5). -/
inductive ForecastError where
  | modelUnavailable
deriving DecidableEq, Repr

/-- Outcome of one ForecastAdapter call as seen by the engine. -/
abbrev ForecastResult := Except ForecastError DegradationForecast

/-- Modelled from the spec (section 4.1): the documented static fallback
degradation table, one compound-specific flat rate (seconds/lap), used when
the forecaster signals `ModelUnavailable`. -/
def fallbackRate : Compound → Rat
  | Compound.SOFT => 8/100
  | Compound.MEDIUM => 5/100
  | Compound.HARD => 3/100

/-- Modelled from the spec (section 6): the engine's configuration surface. -/
structure EngineConfig where
  pitLaneTimeLoss : Rat := 22
  safetyCarProb : Rat := 15/100
  safetyCarDelta : Rat := -2
  numTrials : Nat := 100
  horizonCap : Nat := 10
  gapThreshold : Rat := 10
  undercutGapThreshold : Rat := 2
  hardSafetyMultiplier : Rat := 2
  nominalDegRate : Rat := 5/100
  hardMaxTireAge : Nat := 35
deriving DecidableEq, Repr

/-- The degradation rate the engine works with on the current lap: the
forecast rate when the forecaster answered, the static fallback rate of the
current compound otherwise (spec sections 4.1 and 7). -/
def currentRate (fres : ForecastResult) (st : RaceState) : Rat :=
  match fres with
  | Except.ok f => f.rate
  | Except.error _ => fallbackRate st.compound

/-- Whether the engine runs in degraded mode (forecaster unavailable). -/
def isDegraded (fres : ForecastResult) : Bool :=
  match fres with
  | Except.ok _ => false
  | Except.error _ => true

/-! ### RaceOutcomeSimulator, modelled from the spec (section 4.4) -/

/-- Modelled from the spec (section 3): a `StrategyCandidate` stint plan,
here one planned stop — the pit lap and the compound fitted at it. -/
structure StrategyCandidate where
  pit_lap : Nat
  new_compound : Compound
deriving DecidableEq, Repr

/-- Modelled from the spec (section 3): `SimulationResult` aggregated over the
stochastic rollouts.  `position_distribution` lists the probability of each
finishing position 1..N (index `i` holds position `i + 1`). -/
structure SimulationResult where
  position_distribution : List Rat
  win_probability : Rat
  podium_probability : Rat
  expected_finish_position : Rat
deriving DecidableEq, Repr

/-- A 32-bit linear congruential pseudo-random step (Numerical Recipes
constants), the deterministic noise source of the simulator. -/
def lcg (s : Nat) : Nat :=
  (1664525 * s + 1013904223) % 4294967296

/-- Maps an LCG state to a rational in [0, 1). -/
def randUnit (s : Nat) : Rat :=
  (s % 4294967296 : Nat) / 4294967296

/-- Per-trial seed: mixes the base seed with the trial index, so trials are
independent of each other and of evaluation order (spec section 5). -/
def trialSeed (seed : Nat) (trial : Nat) : Nat :=
  lcg (seed + 2654435761 * trial)

/-- Modelled from the spec (section 4.4): one simulated lap — sample a
safety-car occurrence (Bernoulli via the unit interval) and a degradation
noise term drawn from the forecast's confidence interval, and accumulate the
lap-time delta. -/
def trialStep (cfg : EngineConfig) (f : DegradationForecast)
    (acc : Nat × Rat) (_lap : Nat) : Nat × Rat :=
  let s1 := lcg acc.1
  let safetyCar := randUnit s1 < cfg.safetyCarProb
  let s2 := lcg s1
  let noise := f.lower_bound + randUnit s2 * (f.upper_bound - f.lower_bound)
  (s2, acc.2 + (if safetyCar then cfg.safetyCarDelta else noise))

/-- Clamps a simulated finishing position into the grid range 1..N. -/
def clampPos (numDrivers : Nat) (p : Int) : Nat :=
  (max 1 (min (numDrivers : Int) p)).toNat

/-- Modelled from the spec (section 4.4): one independent stochastic trial —
accumulate lap-time deltas over the remaining laps from a per-trial seed and
resolve the subject driver's finishing position with the overtake rule,
clamped to the grid. -/
def simulateTrialPos (cfg : EngineConfig) (st : RaceState)
    (f : DegradationForecast) (seed : Nat) (trial : Nat) : Nat :=
  let lapsLeft := st.total_laps - st.current_lap
  let run := (List.range lapsLeft).foldl (trialStep cfg f) (trialSeed seed trial, 0)
  let delta := run.2
  let raw : Int := (st.position : Int)
    + (if cfg.pitLaneTimeLoss < delta then 1 else 0)
    - (if delta < 0 then 1 else 0)
  clampPos st.num_drivers raw

/-- The list of finishing positions over all configured trials. -/
def trialPositions (cfg : EngineConfig) (st : RaceState)
    (f : DegradationForecast) (seed : Nat) : List Nat :=
  (List.range cfg.numTrials).map (simulateTrialPos cfg st f seed)

/-- Empirical histogram of finishing positions normalized to probabilities:
entry `i` is the fraction of trials finishing in position `i + 1`. -/
def positionDistribution (numDrivers : Nat) (positions : List Nat) : List Rat :=
  (List.range numDrivers).map
    (fun i => ((positions.count (i + 1) : Nat) : Rat) / positions.length)

/-- Modelled from the spec (section 4.4): the RaceOutcomeSimulator.  Runs the
configured number of independent trials from the optional seed (default 0)
and aggregates them into a `SimulationResult`; `win_probability` is the
probability of position 1 and `podium_probability` of positions 1..3. -/
def simulateRace (cfg : EngineConfig) (st : RaceState)
    (f : DegradationForecast) (cand : StrategyCandidate)
    (seed : Option Nat) : SimulationResult :=
  let s0 := seed.getD 0
  let positions := trialPositions cfg st f (s0 + cand.pit_lap)
  let dist := positionDistribution st.num_drivers positions
  { position_distribution := dist
    win_probability := dist.getD 0 0
    podium_probability := dist.getD 0 0 + dist.getD 1 0 + dist.getD 2 0
    expected_finish_position :=
      (List.range st.num_drivers).foldl
        (fun acc i => acc + ((i + 1 : Nat) : Rat) * dist.getD i 0) 0 }

/-! ### CompetitorThreatAnalyzer and StrategyEngine, modelled from the spec -/

/-- Modelled from the spec (section 4.3): undercut risk from the car behind —
HIGH when a car sits within the tight undercut gap, MEDIUM when one is within
the general gap threshold, LOW otherwise.  (The flat backend request carries
only the gaps, so competitor tire data does not enter this model.) -/
def undercutRisk (cfg : EngineConfig) (st : RaceState) : RiskLevel :=
  if st.gaps_behind.any (fun g => g ≤ cfg.undercutGapThreshold) then RiskLevel.HIGH
  else if st.gaps_behind.any (fun g => g ≤ cfg.gapThreshold) then RiskLevel.MEDIUM
  else RiskLevel.LOW

/-- Modelled from the spec (section 4.3): overcut opportunity from the car
ahead, graded by the gap ahead. -/
def overcutOpportunity (cfg : EngineConfig) (st : RaceState) : RiskLevel :=
  if st.gaps_ahead.any (fun g => g ≤ cfg.undercutGapThreshold) then RiskLevel.HIGH
  else if st.gaps_ahead.any (fun g => g ≤ cfg.gapThreshold) then RiskLevel.MEDIUM
  else RiskLevel.LOW

/-- Competitor analysis block of the `Recommendation` (spec section 3). -/
structure CompetitorAnalysis where
  undercut_risk : RiskLevel
  overcut_opportunity : RiskLevel
  recommended_response : String
deriving DecidableEq, Repr

/-- Modelled from the spec (section 4.2): expected total time loss of pitting
on a given lap — degradation integrated over the rest of the current stint
plus over the new stint, plus the fixed pit-lane loss. -/
def candidateTimeLoss (cfg : EngineConfig) (fres : ForecastResult)
    (st : RaceState) (lap : Nat) : Rat :=
  currentRate fres st * ((lap - st.current_lap : Nat) : Rat)
    + fallbackRate Compound.MEDIUM * ((st.total_laps - lap : Nat) : Rat)
    + cfg.pitLaneTimeLoss

/-- Candidate pit laps of the optimizer's bounded horizon:
`current_lap + 1 .. min (current_lap + horizonCap) total_laps`
(spec section 4.2). -/
def candidateLaps (cfg : EngineConfig) (st : RaceState) : List Nat :=
  (List.range (min cfg.horizonCap (st.total_laps - st.current_lap))).map
    (fun i => st.current_lap + 1 + i)

/-- Modelled from the spec (section 4.2): the PitWindowOptimizer's top
candidate — the horizon lap with the least expected total time loss,
ties broken towards the later lap. -/
def optimizerTop (cfg : EngineConfig) (fres : ForecastResult)
    (st : RaceState) : Nat :=
  (candidateLaps cfg st).foldl
    (fun best lap =>
      if candidateTimeLoss cfg fres st lap ≤ candidateTimeLoss cfg fres st best
      then lap else best)
    (st.current_lap + 1)

/-- Modelled from the spec (section 4.5, rule 4): the lap by which a HIGH
undercut threat must be covered — the minimal pull-forward keeps the stop as
late as possible while answering the car behind, two laps out. -/
def coverThreatLap (st : RaceState) : Nat :=
  st.current_lap + 2

/-- Modelled from the spec (section 4.5, rule 4): the competitor override —
when undercut risk is HIGH and the optimal stop is more than 2 laps away,
pull the recommendation forward to the threat-cover lap; otherwise keep the
optimizer's lap. -/
def applyCompetitorOverride (st : RaceState) (risk : RiskLevel)
    (optLap : Nat) : Nat :=
  if risk = RiskLevel.HIGH ∧ st.current_lap + 2 < optLap then coverThreatLap st
  else optLap

/-- Modelled from the spec (section 4.5, rule 1): the safety override fires
when the current-lap degradation rate exceeds the hard safety threshold or
the tire age exceeds the hard maximum. -/
def safetyOverride (cfg : EngineConfig) (fres : ForecastResult)
    (st : RaceState) : Bool :=
  decide (cfg.hardSafetyMultiplier * cfg.nominalDegRate < currentRate fres st)
    || decide (cfg.hardMaxTireAge < st.tire_age)

/-- Modelled from the spec (section 4.5, rule 3): the four-level decision
urgency from laps-to-optimal. -/
def decisionUrgency (lapsToOptimal : Nat) : Urgency :=
  if lapsToOptimal ≤ 2 then Urgency.IMMEDIATE
  else if lapsToOptimal ≤ 5 then Urgency.SOON
  else if lapsToOptimal ≤ 10 then Urgency.MONITOR
  else Urgency.LOW

/-- Immediate-action block of the `Recommendation` (spec section 3). -/
structure ImmediateAction where
  verb : Verb
  reason : String
  confidence : Nat
deriving DecidableEq, Repr

/-- Optimal-strategy block of the `Recommendation` (spec section 3). -/
structure OptimalStrategy where
  pit_lap : Nat
  new_compound : Compound
  expected_time_loss : Rat
  risk_level : RiskLevel
deriving DecidableEq, Repr

/-- One alternative: a strategy candidate paired with its own simulation
result (spec sections 3 and 4.5). -/
structure StrategyAlternative where
  candidate : StrategyCandidate
  sim : SimulationResult
deriving DecidableEq, Repr

/-- Modelled from the spec (section 3): the top-level `Recommendation`,
with the `degraded_mode` flag of section 7. -/
structure Recommendation where
  immediate_action : ImmediateAction
  optimal_strategy : Option OptimalStrategy
  alternatives : List StrategyAlternative
  competitor_analysis : CompetitorAnalysis
  decision_urgency : Urgency
  degraded_mode : Bool
deriving DecidableEq, Repr

/-- Modelled from the spec (section 4.2): the compound fitted at the stop —
a harder compound than the current one for the run to the flag. -/
def nextCompound (c : Compound) : Compound :=
  match c with
  | Compound.SOFT => Compound.MEDIUM
  | Compound.MEDIUM => Compound.HARD
  | Compound.HARD => Compound.MEDIUM

/-- The forecast the simulator rolls with: the forecaster's answer, or a flat
interval around the fallback rate in degraded mode. -/
def effectiveForecast (fres : ForecastResult) (st : RaceState) :
    DegradationForecast :=
  match fres with
  | Except.ok f => f
  | Except.error _ =>
    { rate := fallbackRate st.compound
      lower_bound := fallbackRate st.compound
      upper_bound := fallbackRate st.compound * 2
      risk_level := RiskLevel.HIGH }

/-- Builds the alternative for one pit lap, carrying its own simulation
result (spec section 4.5). -/
def mkStrategyAlternative (cfg : EngineConfig) (fres : ForecastResult)
    (st : RaceState) (lap : Nat) : StrategyAlternative :=
  let cand : StrategyCandidate :=
    { pit_lap := lap, new_compound := nextCompound st.compound }
  { candidate := cand
    sim := simulateRace cfg st (effectiveForecast fres st) cand none }

/-- The bound of spec section 8 applied to the optimizer's raw answer: the
recommended stop lies in `[current_lap + 1, total_laps]`. -/
def clampOptimum (st : RaceState) (optRaw : Nat) : Nat :=
  max (st.current_lap + 1) (min st.total_laps optRaw)

/-- Modelled from the spec (section 4.5): assembly of the final
`Recommendation` from a validated state, the forecaster outcome and the
optimizer's raw top pit lap.  Applies, in order: the bound of section 8 on
the optimizer's lap, the competitor override (rule 4), the safety override
(rule 1) and the urgency classification (rule 3); the alternatives list holds
the optimal strategy plus one earlier and one later candidate. -/
def assembleRecommendation (cfg : EngineConfig) (fres : ForecastResult)
    (st : RaceState) (optRaw : Nat) : Recommendation :=
  let optLap := clampOptimum st optRaw
  let risk := undercutRisk cfg st
  let finalLap := applyCompetitorOverride st risk optLap
  let pitNow := safetyOverride cfg fres st
  let verb := if pitNow then Verb.PIT_NOW else Verb.CONTINUE
  let optimal : OptimalStrategy :=
    { pit_lap := finalLap
      new_compound := nextCompound st.compound
      expected_time_loss := candidateTimeLoss cfg fres st finalLap
      risk_level := (effectiveForecast fres st).risk_level }
  { immediate_action :=
      { verb := verb
        reason := if pitNow then "safety override" else "degradation manageable"
        confidence := if pitNow then 90 else 75 }
    optimal_strategy := some optimal
    alternatives :=
      [ mkStrategyAlternative cfg fres st (finalLap - 1),
        mkStrategyAlternative cfg fres st finalLap,
        mkStrategyAlternative cfg fres st (finalLap + 1) ]
    competitor_analysis :=
      { undercut_risk := risk
        overcut_opportunity := overcutOpportunity cfg st
        recommended_response :=
          if risk = RiskLevel.HIGH then "cover the undercut"
          else "pit at optimal window" }
    decision_urgency := decisionUrgency (finalLap - st.current_lap)
    degraded_mode := isDegraded fres }

/-- Modelled from the spec (sections 4.5 and 7): the StrategyEngine entry
point — reject an invalid snapshot with `InvalidRaceState` before any
computation, otherwise always assemble a full `Recommendation`, also when the
forecaster signalled `ModelUnavailable`. -/
def getStrategyRecommendation (cfg : EngineConfig) (fres : ForecastResult)
    (st : RaceState) : Except InvalidRaceState Recommendation :=
  if validRaceState st then
    Except.ok (assembleRecommendation cfg fres st (optimizerTop cfg fres st))
  else
    Except.error { reason := "malformed or inconsistent race state" }

/-- Modelled from the spec (section 7): structural validity of a
`Recommendation` — a confidence within 0..100, a present optimal strategy and
the three-entry alternatives block. -/
def structurallyValid (r : Recommendation) : Prop :=
  r.immediate_action.confidence ≤ 100 ∧
  r.optimal_strategy.isSome = true ∧
  3 ≤ r.alternatives.length

/-- The all-defaults engine configuration. -/
def defaultConfig : EngineConfig := {}

/-- Concrete mid-race snapshot used as evaluation input: lap 25 of 58, P3,
a 40-lap-old MEDIUM tire, a car 1 second behind. -/
def stSample : RaceState :=
  { current_lap := 25, position := 3, tire_age := 40
    compound := Compound.MEDIUM, track_temp := 35
    gaps_ahead := [2], gaps_behind := [1]
    total_laps := 58, num_drivers := 20 }

/-- Concrete degradation forecast used as evaluation input. -/
def forecastSample : DegradationForecast :=
  { rate := 7/100, lower_bound := 5/100, upper_bound := 9/100
    risk_level := RiskLevel.MEDIUM }

/-- Concrete strategy candidate used as evaluation input. -/
def candSample : StrategyCandidate :=
  { pit_lap := 30, new_compound := Compound.HARD }

/-! ## Helper lemmas -/

theorem updateConfidence_bounds (c n : Rat) :
    50 ≤ updateConfidence c n ∧ updateConfidence c n ≤ 95 := by
  unfold updateConfidence
  constructor
  · exact le_max_left _ _
  · exact max_le (by norm_num) (min_le_left _ _)

theorem foldl_updateConfidence_bounds (noises : List Rat) :
    ∀ c : Rat, 0 ≤ c → c ≤ 100 →
      0 ≤ noises.foldl updateConfidence c ∧ noises.foldl updateConfidence c ≤ 100 := by
  induction noises with
  | nil => intro c h0 h1; exact ⟨h0, h1⟩
  | cons n rest ih =>
    intro c _ _
    have hb := updateConfidence_bounds c n
    exact ih (updateConfidence c n) (by linarith [hb.1]) (by linarith [hb.2])

theorem take_append_take {α : Type _} (x : List α) :
    ∀ (n : Nat) (y : List α), (x ++ y).take n = (x ++ y.take n).take n := by
  induction x with
  | nil =>
    intro n y
    simp [List.take_take]
  | cons a t ih =>
    intro n y
    cases n with
    | zero => simp
    | succ m =>
      simp only [List.cons_append, List.take_succ_cons]
      rw [ih m y, ih m (y.take (m + 1)), List.take_take]
      have hmin : min m (m + 1) = m := by omega
      rw [hmin]

theorem processAlerts_closed_form (msgs : List Alert) :
    ∀ start : List Alert, start.length ≤ 5 →
      processAlerts start msgs = (msgs.reverse ++ start).take 5 := by
  induction msgs with
  | nil =>
    intro start h
    simp [processAlerts, List.take_of_length_le h]
  | cons m rest ih =>
    intro start h
    have hlen : (pushAlert m start).length ≤ 5 := by
      simp only [pushAlert, List.length_cons, List.length_take]
      omega
    have step : processAlerts start (m :: rest) = processAlerts (pushAlert m start) rest := by
      simp [processAlerts]
    have e1 := take_append_take rest.reverse 5 (pushAlert m start)
    have e2 := take_append_take rest.reverse 5 (m :: start)
    rw [step, ih (pushAlert m start) hlen, e1, List.reverse_cons, List.append_assoc,
      List.singleton_append, e2]
    simp [pushAlert, List.take_succ_cons, List.take_take]

/-! ## Claim theorems -/

/-- C1 (counterexample): on the late-race snapshot lap 55 of 58, the scenario
generator emits a candidate whose pit lap (65) lies beyond the final lap of
the race. -/
theorem dynamicScenarios_pit_lap_exceeds_total :
    ∃ sc ∈ dynamicScenarios raceLate driverLate,
      raceLate.total_laps < sc.pit_lap := by
  decide

/-- C1 (amended): every scenario generated by `dynamicScenarios` has a pit
lap between `current_lap + 1` and `current_lap + 10`; in particular the pit
lap is never on or before the current lap, and it is within
`[current_lap + 1, total_laps]` whenever at least 10 laps remain. -/
theorem dynamicScenarios_pit_lap_window (race : ApiRaceState) (d : ApiDriver)
    (sc : SimulationScenario) (hsc : sc ∈ dynamicScenarios race d) :
    race.current_lap + 1 ≤ sc.pit_lap ∧ sc.pit_lap ≤ race.current_lap + 10 ∧
    (race.current_lap + 10 ≤ race.total_laps → sc.pit_lap ≤ race.total_laps) := by
  simp only [dynamicScenarios, List.mem_cons, List.mem_singleton,
    List.not_mem_nil, or_false] at hsc
  rcases hsc with rfl | rfl | rfl <;> simp <;> omega

/-- C1 (witness): the window bound evaluated on the late-race snapshot for
its first generated scenario. -/
theorem dynamicScenarios_pit_lap_window_witness :
    raceLate.current_lap + 1
        ≤ ((dynamicScenarios raceLate driverLate).head (by decide)).pit_lap ∧
    ((dynamicScenarios raceLate driverLate).head (by decide)).pit_lap
        ≤ raceLate.current_lap + 10 ∧
    (raceLate.current_lap + 10 ≤ raceLate.total_laps →
      ((dynamicScenarios raceLate driverLate).head (by decide)).pit_lap
        ≤ raceLate.total_laps) :=
  dynamicScenarios_pit_lap_window raceLate driverLate _ (List.head_mem _)

/-- C2 (counterexample): at laps-to-optimal 11 (optimal lap 43, current lap
32) the dashboard urgency classifier returns MONITOR, whereas the claimed
four-level scheme places every value above 10 at LOW — and the code has no
IMMEDIATE/SOON/LOW levels at all. -/
theorem getUrgencyStatus_disagrees_with_spec_levels :
    (getUrgencyStatus 43 32).status = "MONITOR" ∧
    specDecisionUrgency (43 - 32) = "LOW" ∧
    (getUrgencyStatus 43 32).status ≠ specDecisionUrgency (43 - 32) := by
  decide

/-- C2 (amended): the urgency status is a pure function of laps-to-optimal
(optimal lap minus current lap) with exactly three levels: CRITICAL when
laps-to-optimal is at most 2, WARNING when at most 5, and MONITOR for every
larger value. -/
theorem getUrgencyStatus_three_levels (optimalLap currentLap : Int) :
    (getUrgencyStatus optimalLap currentLap).status
        = (getUrgencyStatus (optimalLap - currentLap) 0).status ∧
    ((getUrgencyStatus optimalLap currentLap).status = "CRITICAL" ↔
      optimalLap - currentLap ≤ 2) ∧
    ((getUrgencyStatus optimalLap currentLap).status = "WARNING" ↔
      (2 < optimalLap - currentLap ∧ optimalLap - currentLap ≤ 5)) ∧
    ((getUrgencyStatus optimalLap currentLap).status = "MONITOR" ↔
      5 < optimalLap - currentLap) := by
  by_cases h1 : optimalLap - currentLap ≤ 2 <;>
    by_cases h2 : optimalLap - currentLap ≤ 5 <;>
      simp [getUrgencyStatus, h1, h2] <;> omega

/-- C9: the initial pit-recommendation confidences lie in 0..100, and every
periodic update clamps the new confidence into [50, 95], a subrange of
[0, 100]; consequently no sequence of updates can drive a confidence that
started in 0..100 outside that range. -/
theorem pitWindow_confidence_bounds (rec : PitWindow) (gainNoise confNoise : Rat)
    (c : Rat) (noises : List Rat) (hc0 : 0 ≤ c) (hc1 : c ≤ 100) :
    (∀ r ∈ pitRecommendationsInit, 0 ≤ r.confidence ∧ r.confidence ≤ 100) ∧
    50 ≤ (tickPitWindow rec gainNoise confNoise).confidence ∧
    (tickPitWindow rec gainNoise confNoise).confidence ≤ 95 ∧
    0 ≤ (tickPitWindow rec gainNoise confNoise).confidence ∧
    (tickPitWindow rec gainNoise confNoise).confidence ≤ 100 ∧
    0 ≤ noises.foldl updateConfidence c ∧
    noises.foldl updateConfidence c ≤ 100 := by
  have hu := updateConfidence_bounds rec.confidence confNoise
  have hf := foldl_updateConfidence_bounds noises c hc0 hc1
  have ht : (tickPitWindow rec gainNoise confNoise).confidence
      = updateConfidence rec.confidence confNoise := rfl
  refine ⟨by decide, hu.1, hu.2, by rw [ht]; linarith [hu.1],
    by rw [ht]; linarith [hu.2], hf.1, hf.2⟩

/-- C9 (witness): the bounds evaluated on the initial HAM row with a
confidence noise of 7 and the update sequence [7, -200] started at 85. -/
theorem pitWindow_confidence_bounds_witness :
    (∀ r ∈ pitRecommendationsInit, 0 ≤ r.confidence ∧ r.confidence ≤ 100) ∧
    50 ≤ (tickPitWindow ((pitRecommendationsInit).head (by decide)) 1 7).confidence ∧
    (tickPitWindow ((pitRecommendationsInit).head (by decide)) 1 7).confidence ≤ 95 ∧
    0 ≤ (tickPitWindow ((pitRecommendationsInit).head (by decide)) 1 7).confidence ∧
    (tickPitWindow ((pitRecommendationsInit).head (by decide)) 1 7).confidence ≤ 100 ∧
    0 ≤ ([7, -200] : List Rat).foldl updateConfidence 85 ∧
    ([7, -200] : List Rat).foldl updateConfidence 85 ≤ 100 :=
  pitWindow_confidence_bounds ((pitRecommendationsInit).head (by decide)) 1 7
    85 [7, -200] (by norm_num) (by norm_num)

/-- C10: the live-alerts update keeps at most 5 alerts, the newly received
alert is always at the head, from an empty start any message stream leaves
exactly the latest at-most-5 messages newest first, and after at least one
message the list is bounded by 5 from any initial state. -/
theorem liveAlerts_bounded_newest_first (a : Alert) (l start msgs : List Alert) :
    (pushAlert a l).length ≤ 5 ∧
    (pushAlert a l).head? = some a ∧
    (start.length ≤ 5 → processAlerts start msgs = (msgs.reverse ++ start).take 5) ∧
    processAlerts [] msgs = msgs.reverse.take 5 ∧
    (msgs ≠ [] → (processAlerts start msgs).length ≤ 5) := by
  refine ⟨?_, rfl, fun h => processAlerts_closed_form msgs start h, ?_, ?_⟩
  · simp only [pushAlert, List.length_cons, List.length_take]
    omega
  · have := processAlerts_closed_form msgs [] (by simp)
    simpa using this
  · intro hne
    cases msgs with
    | nil => exact absurd rfl hne
    | cons m rest =>
      have hlen : (pushAlert m start).length ≤ 5 := by
        simp only [pushAlert, List.length_cons, List.length_take]
        omega
      have step : processAlerts start (m :: rest) = processAlerts (pushAlert m start) rest := by
        simp [processAlerts]
      rw [step, processAlerts_closed_form rest (pushAlert m start) hlen]
      simp [List.length_take]

/-- C10 (witness): the alert invariants evaluated on a concrete alert, a
concrete 6-element starting list and a concrete 2-message stream. -/
theorem liveAlerts_bounded_newest_first_witness :
    (pushAlert ({ id := "a0", type := AlertType.info, message := "m0" } : Alert) []).length ≤ 5 ∧
    (pushAlert ({ id := "a0", type := AlertType.info, message := "m0" } : Alert) []).head?
      = some ({ id := "a0", type := AlertType.info, message := "m0" } : Alert) ∧
    (([] : List Alert).length ≤ 5 →
      processAlerts [] [({ id := "a1", type := AlertType.warning, message := "m1" } : Alert)]
        = ([({ id := "a1", type := AlertType.warning, message := "m1" } : Alert)].reverse ++ []).take 5) ∧
    processAlerts [] [({ id := "a1", type := AlertType.warning, message := "m1" } : Alert)]
      = [({ id := "a1", type := AlertType.warning, message := "m1" } : Alert)].reverse.take 5 ∧
    ([({ id := "a1", type := AlertType.warning, message := "m1" } : Alert)] ≠ ([] : List Alert) →
      (processAlerts [] [({ id := "a1", type := AlertType.warning, message := "m1" } : Alert)]).length ≤ 5) :=
  liveAlerts_bounded_newest_first
    ({ id := "a0", type := AlertType.info, message := "m0" } : Alert) [] []
    [({ id := "a1", type := AlertType.warning, message := "m1" } : Alert)]

theorem clampPos_mem (N : Nat) (p : Int) (hN : 1 ≤ N) :
    1 ≤ clampPos N p ∧ clampPos N p ≤ N := by
  unfold clampPos
  omega

theorem simulateTrialPos_mem (cfg : EngineConfig) (st : RaceState)
    (f : DegradationForecast) (seed t : Nat) (hN : 1 ≤ st.num_drivers) :
    1 ≤ simulateTrialPos cfg st f seed t ∧
    simulateTrialPos cfg st f seed t ≤ st.num_drivers := by
  unfold simulateTrialPos
  exact clampPos_mem st.num_drivers _ hN

theorem sum_count_eq_length (N : Nat) (l : List Nat)
    (h : ∀ x ∈ l, 1 ≤ x ∧ x ≤ N) :
    ∑ i in Finset.range N, l.count (i + 1) = l.length := by
  induction l with
  | nil => simp
  | cons a t ih =>
    have ha := h a (List.mem_cons_self a t)
    have ht : ∀ x ∈ t, 1 ≤ x ∧ x ≤ N := fun x hx => h x (List.mem_cons_of_mem a hx)
    have hsplit : ∀ i : Nat, (a :: t).count (i + 1)
        = t.count (i + 1) + if i = a - 1 then 1 else 0 := by
      intro i
      rw [List.count_cons]
      have hiff : ((a == i + 1) = true) ↔ (i = a - 1) := by
        simp only [beq_iff_eq]
        omega
      simp only [hiff]
    rw [Finset.sum_congr rfl (fun i _ => hsplit i), Finset.sum_add_distrib, ih ht,
      Finset.sum_ite_eq' (Finset.range N) (a - 1) (fun _ => 1)]
    have hmem : a - 1 ∈ Finset.range N := Finset.mem_range.mpr (by omega)
    simp [hmem]

theorem positionDistribution_sum (N : Nat) (l : List Nat) (hne : l ≠ [])
    (h : ∀ x ∈ l, 1 ≤ x ∧ x ≤ N) :
    (positionDistribution N l).sum = 1 := by
  unfold positionDistribution
  show (∑ i in Finset.range N, ((l.count (i + 1) : Nat) : Rat) / l.length) = 1
  rw [← Finset.sum_div]
  have hcast : (∑ i in Finset.range N, ((l.count (i + 1) : Nat) : Rat))
      = ((∑ i in Finset.range N, l.count (i + 1) : Nat) : Rat) := by
    rw [Nat.cast_sum]
  rw [hcast, sum_count_eq_length N l h]
  have hpos : 0 < l.length := List.length_pos.mpr hne
  have hlen : (l.length : Rat) ≠ 0 := Nat.cast_ne_zero.mpr (by omega)
  exact div_self hlen

/-- C3: the simulator is a pure function of its optional seed and inputs —
two runs with the same seed, strategy candidate and race state produce
bit-identical position distributions and identical `SimulationResult`s. -/
theorem simulateRace_deterministic (cfg : EngineConfig) (st : RaceState)
    (f : DegradationForecast) (cand : StrategyCandidate) (seed : Option Nat) :
    (simulateRace cfg st f cand seed).position_distribution
      = (simulateRace cfg st f cand seed).position_distribution ∧
    simulateRace cfg st f cand seed = simulateRace cfg st f cand seed :=
  ⟨rfl, rfl⟩

/-- C7: with at least one trial on a grid of at least one car, the
probabilities of the position distribution (entry `i` is finishing position
`i + 1`) sum to 1 — in particular to 1.0 within the 1e-6 tolerance — and
`win_probability` is exactly the distribution's entry for position 1. -/
theorem simulateRace_distribution_sums_to_one (cfg : EngineConfig)
    (st : RaceState) (f : DegradationForecast) (cand : StrategyCandidate)
    (seed : Option Nat) (hT : 1 ≤ cfg.numTrials) (hN : 1 ≤ st.num_drivers) :
    |(simulateRace cfg st f cand seed).position_distribution.sum - 1|
        ≤ 1 / 1000000 ∧
    (simulateRace cfg st f cand seed).win_probability
      = (simulateRace cfg st f cand seed).position_distribution.getD 0 0 := by
  constructor
  · have hlen : (trialPositions cfg st f ((seed.getD 0) + cand.pit_lap)).length
        = cfg.numTrials := by
      simp [trialPositions]
    have hne : trialPositions cfg st f ((seed.getD 0) + cand.pit_lap) ≠ [] := by
      intro hc
      rw [hc] at hlen
      simp at hlen
      omega
    have hmem : ∀ x ∈ trialPositions cfg st f ((seed.getD 0) + cand.pit_lap),
        1 ≤ x ∧ x ≤ st.num_drivers := by
      intro x hx
      simp only [trialPositions, List.mem_map] at hx
      obtain ⟨t, _, rfl⟩ := hx
      exact simulateTrialPos_mem cfg st f _ t hN
    have hsum : (simulateRace cfg st f cand seed).position_distribution.sum = 1 :=
      positionDistribution_sum st.num_drivers _ hne hmem
    rw [hsum]
    norm_num
  · rfl

/-- C7 (witness): the distribution facts at the default configuration on the
concrete mid-race snapshot. -/
theorem simulateRace_distribution_sums_to_one_witness :
    |(simulateRace defaultConfig stSample forecastSample candSample
        none).position_distribution.sum - 1| ≤ 1 / 1000000 ∧
    (simulateRace defaultConfig stSample forecastSample candSample
        none).win_probability
      = (simulateRace defaultConfig stSample forecastSample candSample
          none).position_distribution.getD 0 0 :=
  simulateRace_distribution_sums_to_one defaultConfig stSample forecastSample
    candSample none (by decide) (by decide)

/-- C4: whenever the current-lap degradation rate exceeds the hard safety
threshold or the tire age exceeds the hard maximum, the recommendation's
immediate action is PIT_NOW, for every possible optimizer answer. -/
theorem safety_override_pit_now (cfg : EngineConfig) (fres : ForecastResult)
    (st : RaceState) (optRaw : Nat)
    (h : cfg.hardSafetyMultiplier * cfg.nominalDegRate < currentRate fres st ∨
         cfg.hardMaxTireAge < st.tire_age) :
    (assembleRecommendation cfg fres st optRaw).immediate_action.verb
        = Verb.PIT_NOW ∧
    (validRaceState st →
      ∃ r, getStrategyRecommendation cfg fres st = Except.ok r ∧
        r.immediate_action.verb = Verb.PIT_NOW) := by
  have hso : safetyOverride cfg fres st = true := by
    unfold safetyOverride
    rcases h with h | h <;> simp [h]
  have hverb : ∀ oRaw : Nat,
      (assembleRecommendation cfg fres st oRaw).immediate_action.verb
        = Verb.PIT_NOW := by
    intro oRaw
    simp [assembleRecommendation, hso]
  refine ⟨hverb optRaw, fun hv =>
    ⟨assembleRecommendation cfg fres st (optimizerTop cfg fres st), ?_,
      hverb (optimizerTop cfg fres st)⟩⟩
  unfold getStrategyRecommendation
  rw [if_pos hv]

/-- C4 (witness): the safety override on the concrete snapshot, whose 40-lap
tire age exceeds the default hard maximum of 35. -/
theorem safety_override_pit_now_witness :
    (assembleRecommendation defaultConfig
        (Except.error ForecastError.modelUnavailable) stSample
        30).immediate_action.verb = Verb.PIT_NOW ∧
    (validRaceState stSample →
      ∃ r, getStrategyRecommendation defaultConfig
          (Except.error ForecastError.modelUnavailable) stSample = Except.ok r ∧
        r.immediate_action.verb = Verb.PIT_NOW) :=
  safety_override_pit_now defaultConfig
    (Except.error ForecastError.modelUnavailable) stSample 30 (Or.inr (by decide))

/-- C5: the engine either rejects an invalid snapshot with an
`InvalidRaceState` value or returns a structurally valid `Recommendation`;
when the forecaster signalled `ModelUnavailable` the recommendation is still
returned, flagged `degraded_mode = true`, with a present optimal strategy. -/
theorem engine_availability (cfg : EngineConfig) (fres : ForecastResult)
    (st : RaceState) :
    (¬ validRaceState st →
      ∃ e, getStrategyRecommendation cfg fres st = Except.error e) ∧
    (validRaceState st →
      ∃ r, getStrategyRecommendation cfg fres st = Except.ok r ∧
        structurallyValid r ∧
        (fres = Except.error ForecastError.modelUnavailable →
          r.degraded_mode = true ∧ r.optimal_strategy.isSome = true)) := by
  constructor
  · intro hnv
    refine ⟨{ reason := "malformed or inconsistent race state" }, ?_⟩
    unfold getStrategyRecommendation
    rw [if_neg hnv]
  · intro hv
    refine ⟨assembleRecommendation cfg fres st (optimizerTop cfg fres st),
      ?_, ⟨?_, rfl, ?_⟩, ?_⟩
    · unfold getStrategyRecommendation
      rw [if_pos hv]
    · have hc : (assembleRecommendation cfg fres st
          (optimizerTop cfg fres st)).immediate_action.confidence
            = if safetyOverride cfg fres st then 90 else 75 := rfl
      rw [hc]
      split_ifs <;> norm_num
    · have hlen : (assembleRecommendation cfg fres st
          (optimizerTop cfg fres st)).alternatives.length = 3 := rfl
      rw [hlen]
    · intro hf
      subst hf
      exact ⟨rfl, rfl⟩

/-- C5 (witness): on the concrete valid snapshot with the forecaster down,
the engine still returns a structurally valid recommendation in degraded
mode with a present optimal strategy. -/
theorem engine_availability_witness :
    ∃ r, getStrategyRecommendation defaultConfig
        (Except.error ForecastError.modelUnavailable) stSample = Except.ok r ∧
      structurallyValid r ∧ r.degraded_mode = true ∧
      r.optimal_strategy.isSome = true := by
  obtain ⟨-, h2⟩ := engine_availability defaultConfig
    (Except.error ForecastError.modelUnavailable) stSample
  obtain ⟨r, hok, hsv, himp⟩ := h2 (by decide)
  exact ⟨r, hok, hsv, (himp rfl).1, (himp rfl).2⟩

/-- C6: with HIGH undercut risk and the (clamped) optimizer optimum more
than 2 laps away, the final recommended pit lap assembled by the engine is
strictly earlier than the unadjusted optimum, never later than it, and never
earlier than `current_lap + 1` — for every optimizer answer. -/
theorem undercut_override_pulls_forward (cfg : EngineConfig)
    (fres : ForecastResult) (st : RaceState) (optRaw : Nat)
    (hrisk : undercutRisk cfg st = RiskLevel.HIGH)
    (hfar : st.current_lap + 2 < clampOptimum st optRaw) :
    ∃ o, (assembleRecommendation cfg fres st optRaw).optimal_strategy = some o ∧
      o.pit_lap < clampOptimum st optRaw ∧
      o.pit_lap ≤ clampOptimum st optRaw ∧
      st.current_lap + 1 ≤ o.pit_lap := by
  have hov : applyCompetitorOverride st (undercutRisk cfg st)
      (clampOptimum st optRaw) = coverThreatLap st := by
    unfold applyCompetitorOverride
    rw [if_pos ⟨hrisk, hfar⟩]
  refine ⟨{ pit_lap := applyCompetitorOverride st (undercutRisk cfg st)
              (clampOptimum st optRaw)
            new_compound := nextCompound st.compound
            expected_time_loss := candidateTimeLoss cfg fres st
              (applyCompetitorOverride st (undercutRisk cfg st)
                (clampOptimum st optRaw))
            risk_level := (effectiveForecast fres st).risk_level },
    rfl, ?_, ?_, ?_⟩ <;> simp only [hov] <;> unfold coverThreatLap <;> omega

/-- C6 (witness): the undercut override on the concrete snapshot (a car 1
second behind, forecaster down, raw optimum 35 at lap 25). -/
theorem undercut_override_pulls_forward_witness :
    ∃ o, (assembleRecommendation defaultConfig
        (Except.error ForecastError.modelUnavailable) stSample
        35).optimal_strategy = some o ∧
      o.pit_lap < clampOptimum stSample 35 ∧
      o.pit_lap ≤ clampOptimum stSample 35 ∧
      stSample.current_lap + 1 ≤ o.pit_lap :=
  undercut_override_pulls_forward defaultConfig
    (Except.error ForecastError.modelUnavailable) stSample 35
    (by decide) (by decide)

/-- C8: for every valid state the engine's alternatives list has at least
three entries — the optimal strategy itself, one candidate with a strictly
earlier pit lap and one with a strictly later pit lap — and each entry
carries its own `SimulationResult`, simulated for its own candidate. -/
theorem alternatives_bracket_optimum (cfg : EngineConfig)
    (fres : ForecastResult) (st : RaceState) (hv : validRaceState st) :
    ∃ r, getStrategyRecommendation cfg fres st = Except.ok r ∧
      3 ≤ r.alternatives.length ∧
      ∃ o, r.optimal_strategy = some o ∧
        (∃ a ∈ r.alternatives, a.candidate.pit_lap = o.pit_lap) ∧
        (∃ a ∈ r.alternatives, a.candidate.pit_lap < o.pit_lap) ∧
        (∃ a ∈ r.alternatives, o.pit_lap < a.candidate.pit_lap) ∧
        (∀ a ∈ r.alternatives,
          a.sim = simulateRace cfg st (effectiveForecast fres st)
            a.candidate none) := by
  have hcur : 1 ≤ st.current_lap := hv.1
  set T := applyCompetitorOverride st (undercutRisk cfg st)
    (clampOptimum st (optimizerTop cfg fres st)) with hT
  have hlow : st.current_lap + 1 ≤ T := by
    rw [hT]
    unfold applyCompetitorOverride
    split
    · unfold coverThreatLap
      omega
    · unfold clampOptimum
      exact le_max_left _ _
  refine ⟨assembleRecommendation cfg fres st (optimizerTop cfg fres st),
    ?_, ?_, ?_⟩
  · unfold getStrategyRecommendation
    rw [if_pos hv]
  · have hlen : (assembleRecommendation cfg fres st
        (optimizerTop cfg fres st)).alternatives.length = 3 := rfl
    rw [hlen]
  · have halts : (assembleRecommendation cfg fres st
        (optimizerTop cfg fres st)).alternatives
          = [ mkStrategyAlternative cfg fres st (T - 1),
              mkStrategyAlternative cfg fres st T,
              mkStrategyAlternative cfg fres st (T + 1) ] := rfl
    have hopt : (assembleRecommendation cfg fres st
        (optimizerTop cfg fres st)).optimal_strategy
          = some { pit_lap := T
                   new_compound := nextCompound st.compound
                   expected_time_loss := candidateTimeLoss cfg fres st T
                   risk_level := (effectiveForecast fres st).risk_level } := rfl
    refine ⟨_, hopt, ?_, ?_, ?_, ?_⟩
    · exact ⟨mkStrategyAlternative cfg fres st T,
        by rw [halts]; simp, rfl⟩
    · refine ⟨mkStrategyAlternative cfg fres st (T - 1),
        by rw [halts]; simp, ?_⟩
      show T - 1 < T
      omega
    · refine ⟨mkStrategyAlternative cfg fres st (T + 1),
        by rw [halts]; simp, ?_⟩
      show T < T + 1
      omega
    · intro a ha
      rw [halts] at ha
      simp only [List.mem_cons, List.not_mem_nil, or_false] at ha
      rcases ha with rfl | rfl | rfl <;> rfl

/-- C8 (witness): the alternatives bracket on the concrete valid snapshot. -/
theorem alternatives_bracket_optimum_witness :
    ∃ r, getStrategyRecommendation defaultConfig (Except.ok forecastSample)
        stSample = Except.ok r ∧
      3 ≤ r.alternatives.length ∧
      ∃ o, r.optimal_strategy = some o ∧
        (∃ a ∈ r.alternatives, a.candidate.pit_lap = o.pit_lap) ∧
        (∃ a ∈ r.alternatives, a.candidate.pit_lap < o.pit_lap) ∧
        (∃ a ∈ r.alternatives, o.pit_lap < a.candidate.pit_lap) ∧
        (∀ a ∈ r.alternatives,
          a.sim = simulateRace defaultConfig stSample
            (effectiveForecast (Except.ok forecastSample) stSample)
            a.candidate none) :=
  alternatives_bracket_optimum defaultConfig (Except.ok forecastSample)
    stSample (by decide)

/-- C2 (amended, witness): the three-level classification evaluated at
optimal lap 43, current lap 32. -/
theorem getUrgencyStatus_three_levels_witness :
    (getUrgencyStatus 43 32).status = (getUrgencyStatus (43 - 32) 0).status ∧
    ((getUrgencyStatus 43 32).status = "CRITICAL" ↔ (43 : Int) - 32 ≤ 2) ∧
    ((getUrgencyStatus 43 32).status = "WARNING" ↔
      ((2 : Int) < 43 - 32 ∧ (43 : Int) - 32 ≤ 5)) ∧
    ((getUrgencyStatus 43 32).status = "MONITOR" ↔ (5 : Int) < 43 - 32) :=
  getUrgencyStatus_three_levels 43 32
